import Mathlib

/-!
Formal model of the oauth_pen OAuth2 provider core
(src/oauth_pen/models.py): client applications, grants,
access/refresh tokens, and revocation.

Conventions of the shallow embedding:
- Django model classes become Lean structures; primary keys are explicit
  `id : Nat` fields where the code relies on them.
- The database is an explicit `Store` value; Django `delete()` is a pure
  function on the store that also honours the `on_delete=CASCADE`
  declarations of the foreign keys pointing at the deleted row.
- Python exceptions become the `PyExn` error type and fallible methods
  return `Except PyExn _`.
- `datetime` timestamps become `Nat`; a nullable timestamp is `Option Nat`;
  `timezone.now()` (the clock collaborator) is an explicit `now` argument.
- Python truthiness of a string `s` is `s ≠ ""`; of an optional value it is
  `Option.isSome` (a set `datetime` is always truthy).
-/

/-! ### Python string helpers (`str.split`, `urllib.parse`) -/

/-- Whitespace characters recognised by Python `str.split()` (ASCII part). -/
def pyIsSpace (c : Char) : Bool :=
  c = ' ' || c = '\t' || c = '\n' || c = '\r' || c = '\x0b' || c = '\x0c'

/-- Split a character list at every character satisfying `p`, keeping
empty pieces (the behaviour of Python `s.split(sep)` with an explicit
separator). Structural recursion so that the kernel can evaluate it. -/
def splitChars (p : Char → Bool) : List Char → List (List Char)
  | [] => [[]]
  | c :: rest =>
    let r := splitChars p rest
    if p c then
      [] :: r
    else
      match r with
      | [] => [[c]]
      | t :: ts => (c :: t) :: ts

/-- Python `s.split()` with no argument: split on runs of whitespace,
discarding empty pieces. -/
def pySplit (s : String) : List String :=
  ((splitChars pyIsSpace s.data).map String.mk).filter (fun t => t ≠ "")

/-- Characters allowed in a URL scheme by `urllib.parse` after the first. -/
def isSchemeChar (c : Char) : Bool :=
  c.isAlpha || c.isDigit || c = '+' || c = '-' || c = '.'

/-- Split a character list at the FIRST occurrence of `sep`; `none` when
`sep` does not occur. -/
def breakAtChar (sep : Char) : List Char → Option (List Char × List Char)
  | [] => none
  | c :: rest =>
    if c = sep then
      some ([], rest)
    else
      match breakAtChar sep rest with
      | none => none
      | some (a, b) => some (c :: a, b)

/-- Split a string at the FIRST occurrence of the separator character,
like Python `s.split(sep, 1)`; when the separator is absent the whole
string is returned with an empty remainder. -/
def splitFirst (sep : Char) (s : String) : String × String :=
  match breakAtChar sep s.data with
  | none => (s, "")
  | some (a, b) => (String.mk a, String.mk b)

/-- Join character-list pieces with a separator character (inverse of
`splitChars` on separator-free pieces). -/
def joinWith (sep : Char) : List (List Char) → List Char
  | [] => []
  | [x] => x
  | x :: xs => x ++ sep :: joinWith sep xs

/-- Scheme extraction of `urllib.parse.urlsplit`: the prefix before the
first colon is the scheme when it is non-empty and made of scheme
characters; it is lower-cased. -/
def splitScheme (url : String) : String × String :=
  match breakAtChar ':' url.data with
  | none => ("", url)
  | some (front, rest) =>
    if front ≠ [] && front.all isSchemeChar then
      (String.mk (front.map Char.toLower), String.mk rest)
    else
      ("", url)

/-- Netloc extraction of `urllib.parse.urlsplit`: after a leading `//`,
the netloc runs until the next `/`, `?` or `#`. -/
def splitNetloc (s : String) : String × String :=
  match s.data with
  | '/' :: '/' :: rest =>
    (String.mk (rest.takeWhile (fun c => c ≠ '/' && c ≠ '?' && c ≠ '#')),
     String.mk (rest.dropWhile (fun c => c ≠ '/' && c ≠ '?' && c ≠ '#')))
  | _ => ("", s)

/-- Params extraction of `urllib.parse.urlparse` (`_splitparams`): a `;`
is only looked for in the last `/`-separated segment of the path. -/
def splitParams (path : String) : String × String :=
  let segs := splitChars (fun c => c = '/') path.data
  match segs.getLast? with
  | none => (path, "")
  | some lastSeg =>
    match breakAtChar ';' lastSeg with
    | none => (path, "")
    | some (seg0, rest) =>
      (String.mk (joinWith '/' (segs.dropLast ++ [seg0])), String.mk rest)

/-- The six components of `urllib.parse.urlparse`. -/
structure ParseResult where
  scheme : String
  netloc : String
  path : String
  params : String
  query : String
  fragment : String
deriving DecidableEq, Repr

/-- `urllib.parse.urlparse`: scheme, then `//netloc`, then fragment after
`#`, then query after `?`, then `;params` split out of the path. -/
def urlparse (url : String) : ParseResult :=
  let (scheme, r1) := splitScheme url
  let (netloc, r2) := splitNetloc r1
  let (r3, fragment) := splitFirst '#' r2
  let (pathParams, query) := splitFirst '?' r3
  let (path, params) := splitParams pathParams
  { scheme := scheme, netloc := netloc, path := path,
    params := params, query := query, fragment := fragment }

/-- Value of a hexadecimal digit (`none` for a non-hex character),
computed on the code point. -/
def hexDigitValue (c : Char) : Option Nat :=
  let n := c.toNat
  if 48 ≤ n ∧ n ≤ 57 then some (n - 48)
  else if 65 ≤ n ∧ n ≤ 70 then some (n - 55)
  else if 97 ≤ n ∧ n ≤ 102 then some (n - 87)
  else none

/-- Percent-decoding of `urllib.parse.unquote` on the character list: a
`%` followed by two hex digits becomes the decoded code point, an
ill-formed `%` is kept literally. -/
def unquoteChars : List Char → List Char
  | [] => []
  | '%' :: a :: b :: rest =>
    match hexDigitValue a, hexDigitValue b with
    | some ha, some hb => Char.ofNat (16 * ha + hb) :: unquoteChars rest
    | _, _ => '%' :: unquoteChars (a :: b :: rest)
  | c :: rest => c :: unquoteChars rest

/-- `urllib.parse.unquote_plus`: `+` becomes a space, then percent
sequences are decoded. -/
def unquote_plus (s : String) : String :=
  String.mk (unquoteChars (s.data.map (fun c => if c = '+' then ' ' else c)))

/-- `urllib.parse.parse_qsl` with its defaults (`keep_blank_values=False`,
`strict_parsing=False`): split the query on `&` and `;`, drop empty
pieces, drop pieces without `=` and pieces whose value is empty, and
unquote names and values. -/
def parse_qsl (qs : String) : List (String × String) :=
  (splitChars (fun c => c = '&' || c = ';') qs.data).filterMap fun nv =>
    if nv = [] then none
    else
      match breakAtChar '=' nv with
      | none => none
      | some (n, v) =>
        if v = [] then none
        else some (unquote_plus (String.mk n), unquote_plus (String.mk v))

/-! ### Exceptions -/

/-- The Python exceptions raised by the modelled code paths. -/
inductive PyExn where
  /-- `django.core.exceptions.ValidationError` with its message. -/
  | ValidationError (msg : String)
  /-- `ValueError` with its message. -/
  | ValueError (msg : String)
  /-- `IndexError`, raised by `list.pop(0)` on an empty list. -/
  | IndexError
  /-- `AccessToken.DoesNotExist`, raised by `AccessToken.objects.get`. -/
  | DoesNotExist
deriving DecidableEq, Repr

/-! ### Client Registry: `ApplicationAbstract` / `Application`

The concrete class `Application` adds nothing to `ApplicationAbstract`
(its `is_usable` override has the same body), so the two are collapsed
into one structure named `Application`. -/

structure Application where
  client_name : String
  client_id : String
  client_secret : String
  client_type : String
  authorization_grant_type : String
  user_id : String
  skip_authorization : Bool
  redirect_uris : String
  remark : String
deriving DecidableEq, Repr

namespace Application

/-- `ApplicationAbstract.CLIENT_CONFIDENTIAL` -/
def CLIENT_CONFIDENTIAL : String := "confidential"

/-- `ApplicationAbstract.CLIENT_PUBLIC` -/
def CLIENT_PUBLIC : String := "public"

/-- `ApplicationAbstract.GRANT_AUTHORIZATION_CODE` -/
def GRANT_AUTHORIZATION_CODE : String := "authorization-code"

/-- `ApplicationAbstract.GRANT_IMPLICIT` -/
def GRANT_IMPLICIT : String := "implicit"

/-- `ApplicationAbstract.GRANT_PASSWORD` -/
def GRANT_PASSWORD : String := "password"

/-- `ApplicationAbstract.GRANT_CLIENT_CREDENTIALS` -/
def GRANT_CLIENT_CREDENTIALS : String := "client-credentials"

/-- `ApplicationAbstract.clean`: raises `ValidationError` when
`redirect_uris` is falsy (the empty string) and the grant type is
`implicit` or `client-credentials`. -/
def clean (self : Application) : Except PyExn Unit :=
  if self.redirect_uris = "" ∧
      (self.authorization_grant_type = GRANT_IMPLICIT ∨
       self.authorization_grant_type = GRANT_CLIENT_CREDENTIALS) then
    Except.error (PyExn.ValidationError
      (self.authorization_grant_type ++ "模式下必填写redirect_uris"))
  else
    Except.ok ()

/-- `ApplicationAbstract.allow_grant_type` -/
def allow_grant_type (self : Application) (grant_type : String) : Bool :=
  if grant_type == "refresh_token" then
    if self.authorization_grant_type == GRANT_AUTHORIZATION_CODE ||
        self.authorization_grant_type == GRANT_PASSWORD ||
        self.authorization_grant_type == GRANT_CLIENT_CREDENTIALS then
      true
    else
      false
  else if self.authorization_grant_type == grant_type then
    true
  else
    false

/-- `ApplicationAbstract.default_redirect_uri`: when `redirect_uris` is
truthy, `self.redirect_uris.split().pop(0)`; `pop(0)` on an empty list
raises `IndexError`. When `redirect_uris` is falsy it raises
`ValueError`. -/
def default_redirect_uri (self : Application) : Except PyExn String :=
  if self.redirect_uris ≠ "" then
    match pySplit self.redirect_uris with
    | [] => Except.error PyExn.IndexError
    | x :: _ => Except.ok x
  else
    Except.error (PyExn.ValueError "implicit、authorization_code 模式必须设置回调地址")

end Application

/-! ### Opaque-token generator and the class-level defaults of
`ApplicationAbstract.client_id` / `client_secret` -/

/-- Modelled from the spec: `oauth_pen.generators.ClientIDGenerator` /
`ClientSecretGenerator` (the `oauth_pen/generators` module is not under
src/) are cryptographically strong opaque-token generators; each
invocation of `.hash()` draws a fresh identifier. The generator is
modelled as a stream: `hash` applied to state `g` returns a token unique
to `g` and the advanced state. -/
def generator_hash (g : Nat) : String × Nat :=
  ("token-" ++ toString g, g + 1)

/-- models.py lines 40–42: `default=generators.ClientIDGenerator().hash()`
and `default=generators.ClientSecretGenerator().hash()` are evaluated
ONCE, when the class body of `ApplicationAbstract` is executed. The pair
is the (client_id, client_secret) default shared by every row. -/
def application_class_defaults : String × String :=
  let (cid, g1) := generator_hash 0
  let (csec, _) := generator_hash g1
  (cid, csec)

/-- Construction of an `Application` row: each field takes the supplied
value or, when none is supplied, the Django field default; for
`client_id` / `client_secret` that default is the class-definition-time
constant `application_class_defaults`. -/
def mkApplication (cid_opt secret_opt : Option String)
    (agt : String) (uris : String) : Application :=
  { client_name := ""
    client_id := cid_opt.getD application_class_defaults.1
    client_secret := secret_opt.getD application_class_defaults.2
    client_type := Application.CLIENT_CONFIDENTIAL
    authorization_grant_type := agt
    user_id := "0"
    skip_authorization := false
    redirect_uris := uris
    remark := "" }

/-! ### Identity Model: `UserAbstract` / `User` -/

structure User where
  username : String
  password : String
  is_active : Bool
deriving DecidableEq, Repr

namespace User

/-- `UserAbstract.check_password`: the body evaluates
`hashers.check_password(password, self.password)` (the external
credential-verification collaborator, passed here as `verify`) but has
no `return` statement, so the Python function returns `None`. -/
def check_password (verify : String → String → Bool)
    (self : User) (password : String) : Option Bool :=
  let _ := verify password self.password
  none

end User

/-! ### Token Store: `AccessToken`, `RefreshToken`, `Grant`, and the
persistence collaborator as an explicit `Store` -/

structure AccessToken where
  /-- Django implicit auto primary key. -/
  id : Nat
  /-- `user = ForeignKey(..., blank=True, null=True, on_delete=CASCADE)` -/
  user_id : Option Nat
  /-- `application = ForeignKey(..., on_delete=CASCADE)` -/
  application_id : String
  token : String
  /-- `expires = DateTimeField` — may still be unset in memory. -/
  expires : Option Nat
deriving DecidableEq, Repr

structure RefreshToken where
  /-- Django implicit auto primary key. -/
  id : Nat
  /-- `access_token = OneToOneField(AccessToken, on_delete=CASCADE)`:
  the stored id of the linked access token. -/
  access_token_id : Nat
  user_id : Nat
  token : String
  application_id : String
deriving DecidableEq, Repr

structure Grant where
  user_id : Nat
  code : String
  application_id : String
  /-- `expires = DateTimeField` — may still be unset in memory. -/
  expires : Option Nat
  /-- Space-separated allow-list of redirect URIs. -/
  redirect_uris : String
  state : String
deriving DecidableEq, Repr

/-- The persistence collaborator: the rows of the two token tables.
(Applications, users and grants are not needed by the delete cascades.) -/
structure Store where
  access_tokens : List AccessToken
  refresh_tokens : List RefreshToken
deriving DecidableEq, Repr

namespace AccessToken

/-- `AccessToken.is_expired`: `if self.expires:` (a set datetime is
always truthy) `return timezone.now() >= self.expires`; otherwise
`return True`. -/
def is_expired (now : Nat) (self : AccessToken) : Bool :=
  match self.expires with
  | some expires => decide (now ≥ expires)
  | none => true

/-- `AccessToken.is_valid`: `return not self.is_expired()`. -/
def is_valid (now : Nat) (self : AccessToken) : Bool :=
  !(is_expired now self)

/-- Django `Model.delete()` on an `AccessToken` row: removes the row
with this primary key and, honouring `on_delete=CASCADE` declared on
`RefreshToken.access_token` (models.py line 185), also removes every
`RefreshToken` row referencing it. -/
def delete (self : AccessToken) (s : Store) : Store :=
  { access_tokens := s.access_tokens.filter (fun a => a.id != self.id)
    refresh_tokens := s.refresh_tokens.filter
      (fun r => r.access_token_id != self.id) }

/-- `AccessToken.revoke`: `self.delete()`. -/
def revoke (self : AccessToken) (s : Store) : Store :=
  delete self s

end AccessToken

namespace RefreshToken

/-- Django `Model.delete()` on a `RefreshToken` row: removes the row
with this primary key (no foreign key points at `RefreshToken`, so no
cascade); deleting an id that is no longer present is a no-op. -/
def delete (self : RefreshToken) (s : Store) : Store :=
  { s with
    refresh_tokens := s.refresh_tokens.filter (fun r => r.id != self.id) }

/-- `RefreshToken.revoke`:
`AccessToken.objects.get(id=self.access_token.id).revoke()` followed by
`self.delete()`. The `objects.get` lookup raises
`AccessToken.DoesNotExist` when no row with the stored id exists. -/
def revoke (self : RefreshToken) (s : Store) : Except PyExn Store :=
  match s.access_tokens.find? (fun a => a.id == self.access_token_id) with
  | none => Except.error PyExn.DoesNotExist
  | some a => Except.ok (delete self (AccessToken.revoke a s))

end RefreshToken

namespace Grant

/-- `Grant.is_expired`: `if not self.expires: return True` then
`return timezone.now() >= self.expires`. -/
def is_expired (now : Nat) (self : Grant) : Bool :=
  match self.expires with
  | none => true
  | some expires => decide (now ≥ expires)

/-- `Grant.redirect_uri_allowed`: for each entry of the allow-list
(`self.redirect_uris.split()`), parse both URIs; when scheme, netloc and
path coincide, accept iff the set of query (key, value) pairs of the
entry is a subset of the candidate's; otherwise try the next entry. -/
def redirect_uri_allowed (self : Grant) (uri : String) : Bool :=
  (pySplit self.redirect_uris).any fun allowed_uri =>
    let parsed_allowed_uri := urlparse allowed_uri
    let parsed_uri := urlparse uri
    if parsed_allowed_uri.scheme == parsed_uri.scheme &&
        parsed_allowed_uri.netloc == parsed_uri.netloc &&
        parsed_allowed_uri.path == parsed_uri.path then
      let aqs_set := parse_qsl parsed_allowed_uri.query
      let uqs_set := parse_qsl parsed_uri.query
      aqs_set.all (fun p => decide (p ∈ uqs_set))
    else
      false

end Grant

/-! ### Concrete records used by witnesses and counterexamples -/

/-- An application with the `password` grant type and no redirect URIs. -/
def appPassword : Application :=
  mkApplication none none Application.GRANT_PASSWORD ""

/-- An application with the `authorization-code` grant type and no
redirect URIs. -/
def appAuthCode : Application :=
  mkApplication none none Application.GRANT_AUTHORIZATION_CODE ""

/-- An application whose `redirect_uris` is a single space: truthy as a
Python string, yet `split()` of it is empty. -/
def appBlankUris : Application :=
  mkApplication none none Application.GRANT_IMPLICIT " "

/-- An application with two redirect URIs. -/
def appTwoUris : Application :=
  mkApplication none none Application.GRANT_IMPLICIT "https://a.com/cb https://b.com/cb"

/-- An access token with id 1. -/
def atOne : AccessToken :=
  { id := 1, user_id := some 7, application_id := "token-0",
    token := "at-1", expires := some 100 }

/-- A refresh token with id 5 whose stored access-token id is 1. -/
def rtFive : RefreshToken :=
  { id := 5, access_token_id := 1, user_id := 7,
    token := "rt-5", application_id := "token-0" }

/-- A store holding `atOne` and `rtFive`. -/
def storeLinked : Store :=
  { access_tokens := [atOne], refresh_tokens := [rtFive] }

/-- A store holding only `rtFive`: its linked access token (id 1) is
absent. -/
def storeOrphan : Store :=
  { access_tokens := [], refresh_tokens := [rtFive] }

/-- A grant whose allow-list is the single entry
`https://a.com/cb?x=1`. -/
def grantCb : Grant :=
  { user_id := 7, code := "c", application_id := "token-0",
    expires := some 100, redirect_uris := "https://a.com/cb?x=1", state := "" }

/-- A grant whose stored `redirect_uris` string is whitespace-only: it
contains no entries. -/
def grantBlank : Grant :=
  { user_id := 7, code := "c2", application_id := "token-0",
    expires := some 100, redirect_uris := " ", state := "" }

/-! ## Theorems -/

/-- Claim C1, amended: `RefreshToken.revoke` deletes the linked
`AccessToken` and the `RefreshToken` itself when the linked
`AccessToken` is in the store; when it is absent, the
`AccessToken.objects.get` lookup raises `DoesNotExist` — the revoke
fails instead of proceeding to delete the `RefreshToken`. -/
theorem RefreshToken_revoke_cascade (s : Store) (rt : RefreshToken) :
    ((s.access_tokens.find? (fun a => a.id == rt.access_token_id)).isSome = true →
      ∃ t, RefreshToken.revoke rt s = Except.ok t ∧
        t.access_tokens.all (fun a => a.id != rt.access_token_id) = true ∧
        t.refresh_tokens.all (fun r => r.id != rt.id) = true ∧
        t.refresh_tokens.all (fun r => r.access_token_id != rt.access_token_id) = true) ∧
    (s.access_tokens.find? (fun a => a.id == rt.access_token_id) = none →
      RefreshToken.revoke rt s = Except.error PyExn.DoesNotExist) := by
  constructor
  · intro hs
    cases hfind : s.access_tokens.find? (fun a => a.id == rt.access_token_id) with
    | none => rw [hfind] at hs; simp at hs
    | some a =>
      have haid : a.id = rt.access_token_id := by
        simpa using List.find?_some hfind
      refine ⟨RefreshToken.delete rt (AccessToken.revoke a s),
        by simp [RefreshToken.revoke, hfind], ?_, ?_, ?_⟩ <;>
        simp [RefreshToken.delete, AccessToken.revoke, AccessToken.delete,
          List.all_eq_true, List.mem_filter, haid]
      tauto
  · intro hn
    simp [RefreshToken.revoke, hn]

/-- Witness for C1 (amended): revoking `rtFive` in `storeLinked`
removes both the access token and the refresh token. -/
theorem RefreshToken_revoke_cascade_witness :
    (storeLinked.access_tokens.find? (fun a => a.id == rtFive.access_token_id)).isSome = true ∧
    (∃ t, RefreshToken.revoke rtFive storeLinked = Except.ok t ∧
      t.access_tokens.all (fun a => a.id != rtFive.access_token_id) = true ∧
      t.refresh_tokens.all (fun r => r.id != rtFive.id) = true ∧
      t.refresh_tokens.all (fun r => r.access_token_id != rtFive.access_token_id) = true) :=
  ⟨by decide, (RefreshToken_revoke_cascade storeLinked rtFive).1 (by decide)⟩

/-- Counterexample to C1 as stated: in `storeOrphan` the refresh token's
linked access token is absent, and `revoke` raises `DoesNotExist`
rather than proceeding to delete the refresh token. -/
theorem RefreshToken_revoke_orphan_fails :
    storeOrphan.refresh_tokens = [rtFive] ∧
    storeOrphan.access_tokens = [] ∧
    RefreshToken.revoke rtFive storeOrphan = Except.error PyExn.DoesNotExist :=
  ⟨rfl, rfl, rfl⟩

/-- Claim C2, amended: `AccessToken.revoke` deletes the access-token row
and — because `RefreshToken.access_token` declares `on_delete=CASCADE` —
every `RefreshToken` row referencing it; all other rows of both tables
are untouched. -/
theorem AccessToken_revoke_spec (s : Store) (a : AccessToken) :
    (AccessToken.revoke a s).access_tokens.all (fun x => x.id != a.id) = true ∧
    (AccessToken.revoke a s).refresh_tokens.all
      (fun r => r.access_token_id != a.id) = true ∧
    (AccessToken.revoke a s).access_tokens =
      s.access_tokens.filter (fun x => x.id != a.id) ∧
    (AccessToken.revoke a s).refresh_tokens =
      s.refresh_tokens.filter (fun r => r.access_token_id != a.id) := by
  refine ⟨?_, ?_, rfl, rfl⟩ <;>
    simp [AccessToken.revoke, AccessToken.delete, List.all_eq_true,
      List.mem_filter]

/-- Counterexample to C2 as stated: `rtFive` references `atOne`, and
after `AccessToken.revoke atOne` the referencing refresh token is no
longer in the store (the claim says it stays). -/
theorem AccessToken_revoke_cascades_refresh :
    rtFive ∈ storeLinked.refresh_tokens ∧
    rtFive.access_token_id = atOne.id ∧
    (AccessToken.revoke atOne storeLinked).refresh_tokens = [] :=
  ⟨by decide, rfl, rfl⟩

/-- Claim C3: `allow_grant_type` accepts exactly the application's own
grant type, plus `refresh_token` when the grant type is
authorization-code, password or client-credentials — never for
implicit. -/
theorem allow_grant_type_iff (app : Application) (g : String)
    (h : app.authorization_grant_type = Application.GRANT_AUTHORIZATION_CODE ∨
         app.authorization_grant_type = Application.GRANT_IMPLICIT ∨
         app.authorization_grant_type = Application.GRANT_PASSWORD ∨
         app.authorization_grant_type = Application.GRANT_CLIENT_CREDENTIALS) :
    (app.allow_grant_type g = true ↔
      (g = app.authorization_grant_type ∨
        (g = "refresh_token" ∧
          (app.authorization_grant_type = Application.GRANT_AUTHORIZATION_CODE ∨
           app.authorization_grant_type = Application.GRANT_PASSWORD ∨
           app.authorization_grant_type = Application.GRANT_CLIENT_CREDENTIALS)))) ∧
    (app.authorization_grant_type = Application.GRANT_IMPLICIT →
      app.allow_grant_type "refresh_token" = false) := by
  constructor
  · rcases h with h | h | h | h <;>
      simp only [Application.allow_grant_type, h, Application.GRANT_AUTHORIZATION_CODE,
        Application.GRANT_IMPLICIT, Application.GRANT_PASSWORD,
        Application.GRANT_CLIENT_CREDENTIALS] <;>
      by_cases hg : g = "refresh_token"
    all_goals first
      | (subst hg; decide)
      | (simp [hg, beq_iff_eq]; try exact eq_comm)
  · intro hi
    simp only [Application.allow_grant_type, hi, Application.GRANT_IMPLICIT,
      Application.GRANT_AUTHORIZATION_CODE, Application.GRANT_PASSWORD,
      Application.GRANT_CLIENT_CREDENTIALS]
    decide

/-- Witness for C3: the `password` application accepts
`refresh_token`. -/
theorem allow_grant_type_iff_witness :
    Application.allow_grant_type appPassword "refresh_token" = true :=
  ((allow_grant_type_iff appPassword "refresh_token" (by decide)).1).mpr (by decide)

/-- Claim C4: `UserAbstract.check_password` is meant to return the
boolean of the external verifier, but the Python body has no `return`
statement: for every verifier, user and candidate it returns `None`,
never the verifier's boolean. -/
theorem check_password_returns_none (verify : String → String → Bool)
    (u : User) (candidate : String) :
    User.check_password verify u candidate = none := rfl

/-- Claim C6: `is_expired` (on both `AccessToken` and `Grant`) is true
iff the expiry is unset (fail-closed) or the clock is at or after it,
and `AccessToken.is_valid` is the negation of `AccessToken.is_expired`. -/
theorem is_expired_is_valid_spec (now : Nat) (t : AccessToken) (g : Grant) :
    (AccessToken.is_expired now t = true ↔
      (t.expires = none ∨ ∃ e, t.expires = some e ∧ e ≤ now)) ∧
    (AccessToken.is_valid now t = !(AccessToken.is_expired now t)) ∧
    (Grant.is_expired now g = true ↔
      (g.expires = none ∨ ∃ e, g.expires = some e ∧ e ≤ now)) := by
  refine ⟨?_, rfl, ?_⟩
  · cases ht : t.expires <;> simp [AccessToken.is_expired, ht, ge_iff_le]
  · cases hg : g.expires <;> simp [Grant.is_expired, hg, ge_iff_le]

/-- Claim C7: `clean` fails with `ValidationError` exactly when
`redirect_uris` is empty and the grant type is implicit or
client-credentials; with authorization-code or password it succeeds
even on empty `redirect_uris`. -/
theorem clean_validation_iff (app : Application) :
    ((∃ m, Application.clean app = Except.error (PyExn.ValidationError m)) ↔
      (app.redirect_uris = "" ∧
        (app.authorization_grant_type = Application.GRANT_IMPLICIT ∨
         app.authorization_grant_type = Application.GRANT_CLIENT_CREDENTIALS))) ∧
    (app.redirect_uris = "" →
      (app.authorization_grant_type = Application.GRANT_AUTHORIZATION_CODE ∨
       app.authorization_grant_type = Application.GRANT_PASSWORD) →
      Application.clean app = Except.ok ()) := by
  constructor
  · simp only [Application.clean]
    split
    next hc => simpa using hc
    next hc => simpa using hc
  · intro hu ha
    rcases ha with ha | ha <;> simp [Application.clean, hu, ha,
      Application.GRANT_AUTHORIZATION_CODE, Application.GRANT_IMPLICIT,
      Application.GRANT_PASSWORD, Application.GRANT_CLIENT_CREDENTIALS]

/-- Witness for C7: an `authorization-code` application with empty
`redirect_uris` passes `clean`. -/
theorem clean_validation_iff_witness :
    Application.clean appAuthCode = Except.ok () :=
  (clean_validation_iff appAuthCode).2 (by decide) (Or.inl (by decide))

/-- Claim C9: the generator is invoked at class-definition time, not per
creation — two applications created separately without explicit ids
share one constant `client_id` and one constant `client_secret`, namely
the class-level defaults. -/
theorem client_id_class_default_shared :
    (mkApplication none none Application.GRANT_PASSWORD "").client_id =
      (mkApplication none none Application.GRANT_IMPLICIT "x").client_id ∧
    (mkApplication none none Application.GRANT_PASSWORD "").client_secret =
      (mkApplication none none Application.GRANT_IMPLICIT "x").client_secret ∧
    (mkApplication none none Application.GRANT_PASSWORD "").client_id =
      application_class_defaults.1 :=
  ⟨rfl, rfl, rfl⟩

/-- Claim C5: `redirect_uri_allowed` accepts a candidate iff some entry
of the allow-list matches it exactly on scheme, netloc and path and the
entry's set of query (key, value) pairs is a subset of the candidate's
(extra candidate parameters tolerated, missing required ones
rejected). -/
theorem redirect_uri_allowed_iff (g : Grant) (uri : String) :
    Grant.redirect_uri_allowed g uri = true ↔
      ∃ e, e ∈ pySplit g.redirect_uris ∧
        (urlparse e).scheme = (urlparse uri).scheme ∧
        (urlparse e).netloc = (urlparse uri).netloc ∧
        (urlparse e).path = (urlparse uri).path ∧
        ∀ p ∈ parse_qsl (urlparse e).query, p ∈ parse_qsl (urlparse uri).query := by
  simp only [Grant.redirect_uri_allowed, List.any_eq_true]
  constructor
  · rintro ⟨e, he, hb⟩
    refine ⟨e, he, ?_⟩
    split at hb
    next hc =>
      simp only [Bool.and_eq_true, beq_iff_eq] at hc
      obtain ⟨⟨h1, h2⟩, h3⟩ := hc
      simp only [List.all_eq_true, decide_eq_true_eq] at hb
      exact ⟨h1, h2, h3, hb⟩
    next => exact absurd hb (by simp)
  · rintro ⟨e, he, h1, h2, h3, h4⟩
    refine ⟨e, he, ?_⟩
    rw [if_pos]
    · simpa only [List.all_eq_true, decide_eq_true_eq] using h4
    · simp [h1, h2, h3]

/-- Claim C8, amended: `default_redirect_uri` returns the first
whitespace-separated entry of `redirect_uris` when there is one; it
raises `ValueError` when `redirect_uris` is the empty string, but
raises `IndexError` (from `[].pop(0)`) when `redirect_uris` is a
non-empty whitespace-only string whose entry list is empty. -/
theorem default_redirect_uri_spec (app : Application) :
    (app.redirect_uris = "" →
      Application.default_redirect_uri app =
        Except.error (PyExn.ValueError "implicit、authorization_code 模式必须设置回调地址")) ∧
    (app.redirect_uris ≠ "" → pySplit app.redirect_uris = [] →
      Application.default_redirect_uri app = Except.error PyExn.IndexError) ∧
    (∀ x xs, app.redirect_uris ≠ "" → pySplit app.redirect_uris = x :: xs →
      Application.default_redirect_uri app = Except.ok x) := by
  refine ⟨?_, ?_, ?_⟩
  · intro h
    simp [Application.default_redirect_uri, h]
  · intro h hs
    simp [Application.default_redirect_uri, h, hs]
  · intro x xs h hs
    simp [Application.default_redirect_uri, h, hs]

/-- Witness for C8 (amended): with two entries the first is returned. -/
theorem default_redirect_uri_spec_witness :
    appTwoUris.redirect_uris ≠ "" ∧
    Application.default_redirect_uri appTwoUris = Except.ok "https://a.com/cb" :=
  ⟨by decide,
    (default_redirect_uri_spec appTwoUris).2.2 "https://a.com/cb"
      ["https://b.com/cb"] (by decide) (by decide)⟩

/-- Counterexample to C8 as stated: a whitespace-only `redirect_uris`
has an empty entry list, yet `default_redirect_uri` raises `IndexError`
(from `pop(0)` on the empty split), not the `ValueError` of the empty
case. -/
theorem default_redirect_uri_blank_raises_IndexError :
    appBlankUris.redirect_uris = " " ∧
    pySplit appBlankUris.redirect_uris = [] ∧
    Application.default_redirect_uri appBlankUris = Except.error PyExn.IndexError :=
  ⟨rfl, rfl, rfl⟩

/-- Claim C10: a grant whose stored `redirect_uris` contains no entries
admits no candidate URI. -/
theorem redirect_uri_allowed_empty (g : Grant)
    (h : pySplit g.redirect_uris = []) (uri : String) :
    Grant.redirect_uri_allowed g uri = false := by
  simp [Grant.redirect_uri_allowed, h]

/-- Witness for C10: the whitespace-only allow-list rejects a concrete
candidate. -/
theorem redirect_uri_allowed_empty_witness :
    pySplit grantBlank.redirect_uris = [] ∧
    Grant.redirect_uri_allowed grantBlank "https://a.com/cb" = false :=
  ⟨by decide, redirect_uri_allowed_empty grantBlank (by decide) "https://a.com/cb"⟩
